import Mathlib

/-
Verification of the appointment-record normalization and aggregation pipeline
in Data.py against its natural-language specification.

The pipeline is shallowly embedded:
  - Python values that flow through the semi-structured records are modelled
    by the inductive type PyVal (null, bool, int, str, list, dict).
  - Fallible Python code (attribute errors, type errors, key errors, value
    errors) is modelled with Except PyErr.
  - The clock dependency of calculate_age (date.today().year) is an explicit
    currentYear parameter.
  - The SHA-256 hex-digest step is an explicit function parameter
    sha256hex : String -> String applied to the raw phone string; the claims
    under study concern when the hash is present and which string it hashes,
    never a concrete digest value.
-/

/-- Model of the Python runtime values that appear in the JSON records:
null, booleans, integers, strings, lists and string-keyed dictionaries. -/
inductive PyVal where
  | none
  | bool (b : Bool)
  | int (n : Int)
  | str (s : String)
  | list (xs : List PyVal)
  | dict (kvs : List (String × PyVal))

/-- The Python exception kinds the embedded code can raise. -/
inductive PyErr where
  | typeError
  | attributeError
  | keyError
  | valueError
deriving DecidableEq

/-- First-match lookup in a string-keyed association list, modelling lookup in
a Python dict (whose keys are unique, so first match is the match). -/
def lookupKey (kvs : List (String × PyVal)) (k : String) : Option PyVal :=
  match kvs with
  | [] => Option.none
  | (k2, v) :: rest => if k2 = k then some v else lookupKey rest k

/-- Model of Python d.get(k, default): returns the stored value when the key
is present (even when that value is null), the default when it is absent, and
raises AttributeError when the receiver is not a dict. -/
def pyGetD (v : PyVal) (k : String) (d : PyVal) : Except PyErr PyVal :=
  match v with
  | PyVal.dict kvs => Except.ok ((lookupKey kvs k).getD d)
  | _ => Except.error PyErr.attributeError

/-- Model of Python str.split with separator "-" on the character list of the
string: Python split always yields at least one (possibly empty) segment. -/
def splitOnDash : List Char → List (List Char)
  | [] => [[]]
  | c :: cs =>
    let rest := splitOnDash cs
    if c = '-' then [] :: rest
    else
      match rest with
      | [] => [[c]]
      | r :: rs => (c :: r) :: rs

/-- The first "-"-separated segment of a birth-date string,
modelling birth_date.split with separator "-" indexed at 0. -/
def firstDashSegment (s : String) : List Char :=
  (splitOnDash s.data).headD []

/-- Accumulating decimal read of a digit character list. -/
def digitsToNatAux (acc : Nat) : List Char → Nat
  | [] => acc
  | c :: cs => digitsToNatAux (acc * 10 + (c.toNat - 48)) cs

/-- Strip leading and trailing whitespace from a character list, modelling the
whitespace tolerance of the Python int constructor. -/
def pyStripWs (l : List Char) : List Char :=
  ((l.dropWhile Char.isWhitespace).reverse.dropWhile Char.isWhitespace).reverse

/-- Model of the Python int constructor on an (ASCII) string: optional
surrounding whitespace, an optional single sign, then at least one decimal
digit; any other shape fails (in Python: raises ValueError). -/
def pyIntOfChars (l : List Char) : Option Int :=
  match pyStripWs l with
  | [] => Option.none
  | c :: cs =>
    if c = '-' then
      if cs ≠ [] ∧ cs.all Char.isDigit then some (-(digitsToNatAux 0 cs : Int))
      else Option.none
    else if c = '+' then
      if cs ≠ [] ∧ cs.all Char.isDigit then some ((digitsToNatAux 0 cs : Int))
      else Option.none
    else
      if (c :: cs).all Char.isDigit then some ((digitsToNatAux 0 (c :: cs) : Int))
      else Option.none

/-- The Python int constructor as a raising operation: ValueError on parse
failure, as raised inside the try block of calculate_age. -/
def pyIntRaise (l : List Char) : Except PyErr Int :=
  match pyIntOfChars l with
  | some n => Except.ok n
  | Option.none => Except.error PyErr.valueError

/-- Embedding of is_valid_indian_phone_number (Data.py lines 6-24): null
returns false; otherwise every non-digit character is removed and the result
is valid iff it has length 10 and starts with "91" or with "+91" (the second
disjunct written exactly as in the source). -/
def is_valid_indian_phone_number (phone_number : Option String) : Bool :=
  match phone_number with
  | Option.none => false
  | some s =>
    (s.data.filter Char.isDigit).length == 10 &&
      (List.isPrefixOf "91".data (s.data.filter Char.isDigit) ||
       List.isPrefixOf "+91".data (s.data.filter Char.isDigit))

/-- Stated from the claim words for C6: the digit-filtered string has length
exactly 10 and starts with the two-character "91"; null yields false. -/
def valid_phone_claim_rule (phone_number : Option String) : Bool :=
  match phone_number with
  | Option.none => false
  | some s =>
    (s.data.filter Char.isDigit).length == 10 &&
      List.isPrefixOf "91".data (s.data.filter Char.isDigit)

/-- is_valid_indian_phone_number with the "+91" disjunct deleted, for the
dead-code claim C9. -/
def is_valid_without_plus (phone_number : Option String) : Bool :=
  match phone_number with
  | Option.none => false
  | some s =>
    (s.data.filter Char.isDigit).length == 10 &&
      List.isPrefixOf "91".data (s.data.filter Char.isDigit)

/-- Embedding of calculate_age (Data.py lines 26-47): null returns null;
otherwise the first "-"-separated segment is parsed by the (raising) int
constructor inside try/except ValueError, and on success the result is the
current calendar year minus the parsed birth year. -/
def calculate_age (currentYear : Int) (birth_date : Option String) : Option Int :=
  match birth_date with
  | Option.none => Option.none
  | some s =>
    match pyIntRaise (firstDashSegment s) with
    | Except.ok birth_year => some (currentYear - birth_year)
    | Except.error _ => Option.none

theorem no_plus_in_digits (l : List Char) (h : ∀ c ∈ l, c.isDigit = true) :
    List.isPrefixOf "+91".data l = false := by
  cases l with
  | nil => rfl
  | cons c cs =>
    have hc : c.isDigit = true := h c (by simp)
    show ('+' == c && List.isPrefixOf "91".data cs) = false
    cases h2 : ('+' == c) with
    | false => simp
    | true =>
      have : c = '+' := (beq_iff_eq.mp h2).symm
      subst this
      simp at hc

/-- Claim C6: for null-or-string input, is_valid_indian_phone_number returns
false for null and otherwise is true exactly when the string obtained by
removing every non-digit character has length 10 and starts with "91"; it is
a total function (never raises) and empty input yields false. -/
theorem claim_C6 :
    (∀ p : Option String,
        is_valid_indian_phone_number p = valid_phone_claim_rule p)
    ∧ is_valid_indian_phone_number Option.none = false
    ∧ is_valid_indian_phone_number (some "") = false := by
  refine ⟨?_, rfl, rfl⟩
  intro p
  cases p with
  | none => rfl
  | some s =>
    show (_ && (_ || _)) = (_ && _)
    rw [no_plus_in_digits (s.data.filter Char.isDigit)
      (fun c hc => List.of_mem_filter hc)]
    simp

/-- Claim C9: the "+91" disjunct in is_valid_indian_phone_number is dead code;
deleting it yields an equivalent function, because the preceding filter keeps
only digit characters and "+" is not a digit. -/
theorem claim_C9 (p : Option String) :
    is_valid_indian_phone_number p = is_valid_without_plus p := by
  cases p with
  | none => rfl
  | some s =>
    show (_ && (_ || _)) = (_ && _)
    rw [no_plus_in_digits (s.data.filter Char.isDigit)
      (fun c hc => List.of_mem_filter hc)]
    simp

theorem calc_age_of_parse_ok (cy y : Int) (s : String)
    (h : pyIntOfChars (firstDashSegment s) = some y) :
    calculate_age cy (some s) = some (cy - y) := by
  show (match pyIntRaise (firstDashSegment s) with
    | Except.ok birth_year => some (cy - birth_year)
    | Except.error _ => Option.none) = some (cy - y)
  unfold pyIntRaise
  rw [h]

theorem calc_age_of_parse_fail (cy : Int) (s : String)
    (h : pyIntOfChars (firstDashSegment s) = Option.none) :
    calculate_age cy (some s) = Option.none := by
  show (match pyIntRaise (firstDashSegment s) with
    | Except.ok birth_year => some (cy - birth_year)
    | Except.error _ => Option.none) = Option.none
  unfold pyIntRaise
  rw [h]

/-- Claim C8: calculate_age returns null on null input; when the first
"-"-separated segment parses as an integer birth year it returns the current
calendar year minus that year; and on any other string (unparsable first
segment, wrong separator, empty string) it returns null — it is a total
function, so no error ever propagates to the caller. -/
theorem claim_C8 :
    (∀ cy : Int, calculate_age cy Option.none = Option.none)
    ∧ (∀ (cy y : Int) (s : String),
        pyIntOfChars (firstDashSegment s) = some y →
        calculate_age cy (some s) = some (cy - y))
    ∧ (∀ (cy : Int) (s : String),
        pyIntOfChars (firstDashSegment s) = Option.none →
        calculate_age cy (some s) = Option.none) :=
  ⟨fun _ => rfl, calc_age_of_parse_ok, calc_age_of_parse_fail⟩

/-- Witness for claim C8 at concrete inputs: a parseable date, null and a
malformed date. -/
theorem claim_C8_witness :
    calculate_age 2026 Option.none = Option.none
    ∧ calculate_age 2026 (some "1990-05-01") = some (2026 - 1990)
    ∧ calculate_age 2026 (some "not-a-date") = Option.none :=
  ⟨claim_C8.1 2026,
   claim_C8.2.1 2026 1990 "1990-05-01" (by decide),
   claim_C8.2.2 2026 "not-a-date" (by decide)⟩

/-- Claim C10: calculate_age applies no range check to the parsed birth year:
whenever the first segment parses to Y the result is exactly currentYear - Y,
a negative integer when Y exceeds the current year; such inputs are not
rejected and do not yield null. -/
theorem claim_C10 (cy y : Int) (s : String)
    (h : pyIntOfChars (firstDashSegment s) = some y) :
    calculate_age cy (some s) = some (cy - y) ∧ (cy < y → cy - y < 0) :=
  ⟨calc_age_of_parse_ok cy y s h, fun hlt => sub_neg.mpr hlt⟩

/-- Witness for claim C10: a birth year in the future produces a negative
age rather than null. -/
theorem claim_C10_witness :
    calculate_age 2020 (some "3000-01-01") = some (2020 - 3000)
    ∧ ((2020 : Int) < 3000 → (2020 : Int) - 3000 < 0) :=
  claim_C10 2020 3000 "3000-01-01" (by decide)

/-- Gender coercion from process_json_data (Data.py lines 81-82): the string
"M" maps to "male", the string "F" to "female", and any other value
(any other string, null, or a non-string) to "others". Python equality of a
non-string value with the string "M" is simply false, so the map is total. -/
def transform_gender (g : PyVal) : String :=
  match g with
  | PyVal.str s => if s = "M" then "male" else if s = "F" then "female" else "others"
  | _ => "others"

/-- calculate_age as called on the stored DOB value (Data.py line 86): null
returns null, a string is handled by calculate_age, and any other value
raises AttributeError (birth_date.split occurs inside the try block but the
except clause catches only ValueError). -/
def calculate_age_py (currentYear : Int) (v : PyVal) : Except PyErr (Option Int) :=
  match v with
  | PyVal.none => Except.ok Option.none
  | PyVal.str s => Except.ok (calculate_age currentYear (some s))
  | _ => Except.error PyErr.attributeError

/-- The shape coercion of the extracted medicines value (Data.py lines
94-95): a non-list value is replaced by the empty list. -/
def coerce_medicines (v : PyVal) : List PyVal :=
  match v with
  | PyVal.list xs => xs
  | _ => []

/-- The fullName derivation (Data.py line 102). The keys firstName and
lastName always exist in processed_item (set at lines 75-76, possibly to
null), so the default "" of the .get calls never applies; a space-join whose
items include null raises TypeError, and a join of two strings concatenates
them around one space. -/
def join_full_name (fn ln : PyVal) : Except PyErr String :=
  match fn, ln with
  | PyVal.str a, PyVal.str b => Except.ok (a ++ " " ++ b)
  | _, _ => Except.error PyErr.typeError

/-- View of the stored phoneNumber value as the null-or-string argument of
is_valid_indian_phone_number: a non-string, non-null value raises TypeError
when the validator iterates over its characters (Data.py line 21). -/
def as_phone_string (v : PyVal) : Except PyErr (Option String) :=
  match v with
  | PyVal.none => Except.ok Option.none
  | PyVal.str s => Except.ok (some s)
  | _ => Except.error PyErr.typeError

/-- The canonical flat record built per appointment by process_json_data. -/
structure Record where
  appointmentId : PyVal
  phoneNumber : PyVal
  firstName : PyVal
  lastName : PyVal
  gender : String
  DOB : PyVal
  Age : Option Int
  medicines : List PyVal
  fullName : String
  isValidMobile : Bool
  phoneNumberHash : Option String

/-- Embedding of the per-record step of process_json_data (Data.py lines
69-114), the normalize operation: field extraction with dict.get defaults,
gender coercion, the birthDate-to-DOB rename with age derivation, the
medicines shape coercion, the fullName join, phone validation, and the
conditional hash (sha256hex abstracts the SHA-256 hex digest of the UTF-8
encoding of the raw phone string). -/
def process_record (sha256hex : String → String) (currentYear : Int)
    (item : PyVal) : Except PyErr Record := do
  let appointmentId ← pyGetD item "appointmentId" PyVal.none
  let phoneVal ← pyGetD item "phoneNumber" PyVal.none
  let patient_details ← pyGetD item "patientDetails" (PyVal.dict [])
  let firstName ← pyGetD patient_details "firstName" PyVal.none
  let lastName ← pyGetD patient_details "lastName" PyVal.none
  let genderRaw ← pyGetD patient_details "gender" PyVal.none
  let birthDate ← pyGetD patient_details "birthDate" PyVal.none
  let age ← calculate_age_py currentYear birthDate
  let consultation_data ← pyGetD item "consultationData" (PyVal.dict [])
  let medicinesRaw ← pyGetD consultation_data "medicines" (PyVal.list [])
  let fullName ← join_full_name firstName lastName
  let phoneOpt ← as_phone_string phoneVal
  Except.ok {
    appointmentId := appointmentId
    phoneNumber := phoneVal
    firstName := firstName
    lastName := lastName
    gender := transform_gender genderRaw
    DOB := birthDate
    Age := age
    medicines := coerce_medicines medicinesRaw
    fullName := fullName
    isValidMobile := is_valid_indian_phone_number phoneOpt
    phoneNumberHash :=
      if is_valid_indian_phone_number phoneOpt then phoneOpt.map sha256hex
      else Option.none }

theorem except_bind_ok {ε α β : Type} {x : Except ε α} {f : α → Except ε β}
    {b : β} (h : x >>= f = Except.ok b) :
    ∃ a, x = Except.ok a ∧ f a = Except.ok b := by
  cases x with
  | error e => exact absurd h (by simp [Bind.bind, Except.bind])
  | ok a => exact ⟨a, rfl, by simpa [Bind.bind, Except.bind] using h⟩

/-- A raw appointment record whose patientDetails carries a lastName but no
firstName, the failing input of claim C1. -/
def raw_c1 : PyVal :=
  PyVal.dict [("patientDetails", PyVal.dict [("lastName", PyVal.str "Doe")])]

/-- Claim C1 (code bug): on a raw record whose firstName is missing,
normalization does not succeed with fullName " Doe" as claimed; it raises
TypeError, because processed_item always contains the firstName key (set to
null at extraction), the .get default "" therefore never applies, and the
space-join of a null raises. -/
theorem claim_C1_eval (sha256hex : String → String) (cy : Int) :
    process_record sha256hex cy raw_c1 = Except.error PyErr.typeError := rfl

/-- Projection of the two phone-derived fields of a canonical record. -/
def phone_fields (r : Record) : Bool × Option String :=
  (r.isValidMobile, r.phoneNumberHash)

/-- The raw appointment record of claim C5: phoneNumber "9199999999", with
both name fields present so that the fullName join succeeds. -/
def raw_c5 : PyVal :=
  PyVal.dict
    [("phoneNumber", PyVal.str "9199999999"),
     ("patientDetails",
      PyVal.dict [("firstName", PyVal.str "Jane"), ("lastName", PyVal.str "Doe")])]

/-- Counterexample to claim C5: normalizing a record with phoneNumber
"9199999999" yields isValidMobile true and a non-null phoneNumberHash (shown
with the identity in place of the digest function), not false and null as
claimed: the digit-filtered string has length 10 and starts with "91". -/
theorem claim_C5_counterexample :
    Except.map phone_fields (process_record id 2026 raw_c5) =
      Except.ok (true, some "9199999999") := rfl

/-- Claim C5 as amended: for phoneNumber "9199999999" the literal rule of the
validator returns true, so normalization yields isValidMobile true and
phoneNumberHash equal to the SHA-256 hex digest of the raw string
"9199999999" (in particular non-null). -/
theorem claim_C5_amended (sha256hex : String → String) (cy : Int) :
    is_valid_indian_phone_number (some "9199999999") = true
    ∧ Except.map phone_fields (process_record sha256hex cy raw_c5) =
        Except.ok (true, some (sha256hex "9199999999")) :=
  ⟨rfl, rfl⟩

/-- Claim C7: every canonical record that normalization actually produces has
a non-null phoneNumberHash exactly when isValidMobile is true, and in that
case the hash is the digest of the raw, untouched phoneNumber string. -/
theorem claim_C7 (sha256hex : String → String) (cy : Int) (item : PyVal)
    (r : Record) (hok : process_record sha256hex cy item = Except.ok r) :
    (r.phoneNumberHash ≠ Option.none ↔ r.isValidMobile = true)
    ∧ (r.isValidMobile = true →
        ∃ s, r.phoneNumber = PyVal.str s
          ∧ r.phoneNumberHash = some (sha256hex s)) := by
  unfold process_record at hok
  obtain ⟨v1, h1, hok⟩ := except_bind_ok hok
  obtain ⟨phoneVal, h2, hok⟩ := except_bind_ok hok
  obtain ⟨pd, h3, hok⟩ := except_bind_ok hok
  obtain ⟨fn, h4, hok⟩ := except_bind_ok hok
  obtain ⟨ln, h5, hok⟩ := except_bind_ok hok
  obtain ⟨gv, h6, hok⟩ := except_bind_ok hok
  obtain ⟨bd, h7, hok⟩ := except_bind_ok hok
  obtain ⟨age, h8, hok⟩ := except_bind_ok hok
  obtain ⟨cd, h9, hok⟩ := except_bind_ok hok
  obtain ⟨medraw, h10, hok⟩ := except_bind_ok hok
  obtain ⟨fullName, h11, hok⟩ := except_bind_ok hok
  obtain ⟨phoneOpt, h12, hok⟩ := except_bind_ok hok
  injection hok with hr
  subst hr
  constructor
  · cases hval : is_valid_indian_phone_number phoneOpt with
    | false => simp [hval]
    | true =>
      cases phoneOpt with
      | none => exact absurd hval (by simp [is_valid_indian_phone_number])
      | some s => simp [hval]
  · intro hv
    have hval : is_valid_indian_phone_number phoneOpt = true := hv
    cases phoneOpt with
    | none => exact absurd hval (by simp [is_valid_indian_phone_number])
    | some s =>
      refine ⟨s, ?_, by simp [hval]⟩
      cases phoneVal with
      | str t =>
        have : some t = some s := by
          simpa [as_phone_string] using h12
        simp [Option.some.injEq] at this
        simp [this]
      | none => simp [as_phone_string] at h12
      | bool b => simp [as_phone_string] at h12
      | int n => simp [as_phone_string] at h12
      | list xs => simp [as_phone_string] at h12
      | dict kvs => simp [as_phone_string] at h12

/-- The raw appointment record used to witness claim C7. -/
def raw_c7 : PyVal :=
  PyVal.dict
    [("phoneNumber", PyVal.str "9187654321"),
     ("patientDetails",
      PyVal.dict [("firstName", PyVal.str "A"), ("lastName", PyVal.str "B")])]

/-- The canonical record produced for raw_c7 with the identity digest and
current year 2026. -/
def rec_c7 : Record :=
  { appointmentId := PyVal.none
    phoneNumber := PyVal.str "9187654321"
    firstName := PyVal.str "A"
    lastName := PyVal.str "B"
    gender := "others"
    DOB := PyVal.none
    Age := Option.none
    medicines := []
    fullName := "A B"
    isValidMobile := true
    phoneNumberHash := some "9187654321" }

/-- Witness for claim C7 on a concrete normalized record. -/
theorem claim_C7_witness :
    process_record id 2026 raw_c7 = Except.ok rec_c7
    ∧ ((rec_c7.phoneNumberHash ≠ Option.none ↔ rec_c7.isValidMobile = true)
       ∧ (rec_c7.isValidMobile = true →
           ∃ s, rec_c7.phoneNumber = PyVal.str s
             ∧ rec_c7.phoneNumberHash = some (id s))) :=
  ⟨rfl, claim_C7 id 2026 raw_c7 rec_c7 rfl⟩

/-- A cell of an exploded pandas column: either one element of some record
list, or the NaN placeholder (modelled as Option.none) that pandas explode
produces for an empty list. -/
def pdExplode (col : List (List PyVal)) : List (Option PyVal) :=
  (col.map (fun xs =>
    match xs with
    | [] => [Option.none]
    | _ => xs.map some)).flatten

/-- Embedding of count_medicines (Data.py lines 130-144) as applied to an
exploded cell: the length when the cell holds a list, 0 for any other value
(including the NaN placeholder). -/
def count_medicines (cell : Option PyVal) : Nat :=
  match cell with
  | some (PyVal.list xs) => xs.length
  | _ => 0

/-- The medicines aggregate expression (Data.py line 151):
explode the medicines column, apply count_medicines to every cell, and sum. -/
def medicines_total (col : List (List PyVal)) : Nat :=
  ((pdExplode col).map count_medicines).sum

/-- The body of the activeMedicines lambda (Data.py line 153): medicine.get
with default False needs a mapping receiver; on the NaN placeholder of an
empty list or on any non-mapping entry the attribute access raises
AttributeError. -/
def get_is_active (cell : Option PyVal) : Except PyErr PyVal :=
  match cell with
  | some (PyVal.dict kvs) =>
      Except.ok ((lookupKey kvs "IsActive").getD (PyVal.bool false))
  | _ => Except.error PyErr.attributeError

/-- Python addition of a truth value onto the running integer sum: booleans
count as 0 or 1, integers add their value, and any other operand raises
TypeError. -/
def pyAdd (acc : Int) (v : PyVal) : Except PyErr Int :=
  match v with
  | PyVal.bool b => Except.ok (acc + (if b then 1 else 0))
  | PyVal.int n => Except.ok (acc + n)
  | _ => Except.error PyErr.typeError

/-- The activeMedicines aggregate expression (Data.py lines 152-154):
explode the medicines column, fetch IsActive from every cell, sum the
results. -/
def active_medicines_total (col : List (List PyVal)) : Except PyErr Int := do
  let vals ← (pdExplode col).mapM get_is_active
  vals.foldlM pyAdd 0

/-- Model of Series.value_counts().to_dict(): a mapping from each distinct
value to its number of occurrences (entry order carries no meaning). -/
def value_counts {α : Type} [DecidableEq α] (xs : List α) : List (α × Nat) :=
  xs.dedup.map (fun v => (v, xs.count v))

/-- The aggregate summary dictionary built by generate_aggregated_data. -/
structure Aggregate where
  Age : List (Int × Nat)
  gender : List (String × Nat)
  validPhoneNumbers : Nat
  appointments : Nat
  medicines : Nat
  activeMedicines : Int

/-- Column access on the DataFrame built from the record list: a DataFrame
constructed from an empty list of records has no columns at all, so selecting
any column of it raises KeyError; on a non-empty frame it is the list of that
field across records. -/
def dataframe_col {α : Type} (df : List Record) (f : Record → α) :
    Except PyErr (List α) :=
  if df.isEmpty then Except.error PyErr.keyError
  else Except.ok (df.map f)

/-- Embedding of generate_aggregated_data (Data.py lines 119-157): Age and
gender value counts (value_counts drops null keys, so null ages are first
filtered out), the count of valid mobiles, the record count, and the two
medicines aggregates over the exploded medicines column. -/
def generate_aggregated_data (df : List Record) : Except PyErr Aggregate := do
  let ages ← dataframe_col df (fun r => r.Age)
  let genders ← dataframe_col df (fun r => r.gender)
  let valids ← dataframe_col df (fun r => r.isValidMobile)
  let medcol ← dataframe_col df (fun r => r.medicines)
  let active ← active_medicines_total medcol
  Except.ok {
    Age := value_counts (ages.filterMap id)
    gender := value_counts genders
    validPhoneNumbers := (valids.filter (fun b => b)).length
    appointments := df.length
    medicines := medicines_total medcol
    activeMedicines := active }

/-- A canonical record with every field inert except the medicines list. -/
def plain_record (meds : List PyVal) : Record :=
  { appointmentId := PyVal.none
    phoneNumber := PyVal.none
    firstName := PyVal.str "A"
    lastName := PyVal.str "B"
    gender := "others"
    DOB := PyVal.none
    Age := Option.none
    medicines := meds
    fullName := "A B"
    isValidMobile := false
    phoneNumberHash := Option.none }

/-- Claim C2 (code bug): aggregating one record with medicines equal to the
empty list and one with a single mapping entry does not yield medicines 1.
The exploded column holds the NaN placeholder of the empty list and the
mapping entry; count_medicines (written for whole lists) returns 0 on both,
so the medicines expression evaluates to 0, and the overall aggregation then
raises AttributeError on the activeMedicines expression. A single one-entry
record likewise yields 0 where the claim requires 1 (the per-record length
sum). -/
theorem claim_C2_eval :
    medicines_total [[], [PyVal.dict [("IsActive", PyVal.bool true)]]] = 0
    ∧ generate_aggregated_data
        [plain_record [], plain_record [PyVal.dict [("IsActive", PyVal.bool true)]]]
        = Except.error PyErr.attributeError
    ∧ medicines_total [[PyVal.dict [("IsActive", PyVal.bool true)]]] = 0 :=
  ⟨rfl, rfl, rfl⟩

/-- Claim C3 (code bug): aggregation over the empty record collection does
not return the all-zero summary; the DataFrame built from no records has no
columns, so the first column selection raises KeyError. -/
theorem claim_C3_eval :
    generate_aggregated_data [] = Except.error PyErr.keyError := rfl

/-- Claim C4 (code bug): the activeMedicines computation raises rather than
skipping non-mapping entries: on a record whose medicines list holds the
scalar "not-a-mapping", and already on a record whose medicines list is empty
(whose exploded cell is the NaN placeholder), the attribute access
medicine.get raises AttributeError, and so does the whole aggregation. -/
theorem claim_C4_eval :
    active_medicines_total [[PyVal.str "not-a-mapping"]]
        = Except.error PyErr.attributeError
    ∧ active_medicines_total [[]] = Except.error PyErr.attributeError
    ∧ generate_aggregated_data [plain_record [PyVal.str "not-a-mapping"]]
        = Except.error PyErr.attributeError :=
  ⟨rfl, rfl, rfl⟩
